import Mathlib

/-!
Verification of the mcp2websocket bridge (`MCPWebSocketBridge` in
`mcp2websocket.js`): connection lifecycle, outbound message queue,
reconnect backoff scheduling, heartbeat timers and shutdown.

The JavaScript class is shallowly embedded as a state record `Bridge`
together with one Lean function per method or event handler.  Timer
creation (`setTimeout` / `setInterval`) and cancellation
(`clearTimeout` / `clearInterval`) are tracked by explicit counters of
live timers next to the handle fields, so that claims about "at most
one pending timer" are about the actual number of timers the runtime
would hold, not merely about the handle variable.  Backoff delays are
rationals: the defaults (base 1000, decay 3/2, cap 30000) make every
delay the JavaScript double computation produces before the cap is hit
exactly representable, so `ℚ` models `Math.min(a * Math.pow(d, n), m)`
faithfully on the reachable values.
-/

namespace Mcp2WebSocket

/- The `ws` library readyState constants (`WebSocket.CONNECTING` etc.). -/
namespace WebSocket

def CONNECTING : Nat := 0

def OPEN : Nat := 1

def CLOSING : Nat := 2

def CLOSED : Nat := 3

end WebSocket

/-- The option record built in the constructor; fields mirror
`this.options` with the source defaults
(`reconnectInterval || 1000`, `maxReconnectInterval || 30000`,
`reconnectDecay || 1.5`, `heartbeatInterval || 30000`). -/
structure Options where
  reconnectInterval : ℚ
  maxReconnectInterval : ℚ
  reconnectDecay : ℚ
  heartbeatInterval : ℚ

/-- The defaults from the constructor of `MCPWebSocketBridge`. -/
def defaultOptions : Options :=
  { reconnectInterval := 1000
    maxReconnectInterval := 30000
    reconnectDecay := 3 / 2
    heartbeatInterval := 30000 }

/-- The mutable state of one `MCPWebSocketBridge` instance, together
with the observable traces needed to state the claims.  `Msg` is the
opaque type of structured messages (the bridge never inspects them).

* `messageQueue`, `reconnectAttempts`, `isConnected` are the fields of
  the same names; `heartbeatTimer` and `reconnectTimer` model the two
  handle fields (`reconnectTimer` holds the delay the pending
  `setTimeout` was created with).
* `activeHeartbeats` counts `setInterval` calls not yet cleared and
  `pendingRetries` counts `setTimeout` calls not yet cleared or fired:
  these witness how many live timers the runtime holds.
* `wsReadyState` is `none` when `this.ws` is `null`, otherwise the
  socket's readyState.
* `sent` is the trace of payloads passed to `this.ws.send`,
  `parseErrors` counts `Failed to parse stdin message` logs,
  `rlClosed` records `this.rl.close()`, `exited` the `process.exit`
  status. -/
structure Bridge (Msg : Type) where
  messageQueue : List Msg
  reconnectAttempts : Nat
  isConnected : Bool
  heartbeatTimer : Option Unit
  activeHeartbeats : Nat
  reconnectTimer : Option ℚ
  pendingRetries : Nat
  wsReadyState : Option Nat
  sent : List Msg
  parseErrors : Nat
  rlClosed : Bool
  exited : Option Nat

/-- The state right after the constructor ran: empty queue, zero
attempts, not connected, no timers, `this.ws = null`. -/
def initialBridge (Msg : Type) : Bridge Msg :=
  { messageQueue := []
    reconnectAttempts := 0
    isConnected := false
    heartbeatTimer := none
    activeHeartbeats := 0
    reconnectTimer := none
    pendingRetries := 0
    wsReadyState := none
    sent := []
    parseErrors := 0
    rlClosed := false
    exited := none }

variable {Msg : Type}

/-- `sendToWebSocket(message)`: if `this.isConnected && this.ws &&
this.ws.readyState === WebSocket.OPEN` the message is written to the
socket, otherwise it is pushed onto the tail of `this.messageQueue`
(JavaScript `Array.prototype.push` appends). -/
def sendToWebSocket (st : Bridge Msg) (m : Msg) : Bridge Msg :=
  if st.isConnected = true ∧ st.wsReadyState = some WebSocket.OPEN then
    { st with sent := st.sent ++ [m] }
  else
    { st with messageQueue := st.messageQueue ++ [m] }

/-- One fuelled unfolding of the `while (this.messageQueue.length > 0
&& this.isConnected)` loop of `flushMessageQueue`: each iteration
shifts the head of the queue and hands it to `sendToWebSocket`.  The
flags the guard and the send test read cannot change during the
synchronous loop, so fuel `st.messageQueue.length` reproduces the
loop exactly whenever it terminates. -/
def flushLoop : Nat → Bridge Msg → Bridge Msg
  | 0, st => st
  | fuel + 1, st =>
    match st.messageQueue, st.isConnected with
    | m :: rest, true => flushLoop fuel (sendToWebSocket { st with messageQueue := rest } m)
    | _, _ => st

/-- `flushMessageQueue()` with enough fuel for the terminating case
(socket open: every iteration removes one message). -/
def flushMessageQueue (st : Bridge Msg) : Bridge Msg :=
  flushLoop st.messageQueue.length st

/-- `startHeartbeat()`: unconditionally creates a new interval timer
and overwrites `this.heartbeatTimer` with its handle.  There is no
guard against an already armed timer. -/
def startHeartbeat (st : Bridge Msg) : Bridge Msg :=
  { st with heartbeatTimer := some ()
            activeHeartbeats := st.activeHeartbeats + 1 }

/-- `stopHeartbeat()`: `clearInterval` on the handle (which always
refers to the most recently created interval), then null the field;
no-op when the handle is already null. -/
def stopHeartbeat (st : Bridge Msg) : Bridge Msg :=
  if st.heartbeatTimer.isSome then
    { st with heartbeatTimer := none
              activeHeartbeats := st.activeHeartbeats - 1 }
  else st

/-- The backoff delay `Math.min(this.options.reconnectInterval *
Math.pow(this.options.reconnectDecay, this.reconnectAttempts),
this.options.maxReconnectInterval)` computed in `scheduleReconnect`. -/
def reconnectDelay (opts : Options) (attempts : Nat) : ℚ :=
  min (opts.reconnectInterval * opts.reconnectDecay ^ attempts) opts.maxReconnectInterval

/-- `scheduleReconnect()`: returns immediately when
`this.reconnectTimer` is set, otherwise computes the backoff delay and
creates one `setTimeout` whose handle is stored in
`this.reconnectTimer`. -/
def scheduleReconnect (opts : Options) (st : Bridge Msg) : Bridge Msg :=
  if st.reconnectTimer.isSome then st
  else
    { st with reconnectTimer := some (reconnectDelay opts st.reconnectAttempts)
              pendingRetries := st.pendingRetries + 1 }

/-- `connect()` up to the point where the new `WebSocket` is
constructed: `this.ws` is replaced by a fresh socket in state
`CONNECTING`; the event handlers fire later as separate turns. -/
def connect (st : Bridge Msg) : Bridge Msg :=
  { st with wsReadyState := some WebSocket.CONNECTING }

/-- The body of the `setTimeout` callback created by
`scheduleReconnect`: the timer is no longer pending, the handle is
nulled, `this.reconnectAttempts++`, then `this.connect()`. -/
def reconnectTimerFires (st : Bridge Msg) : Bridge Msg :=
  connect { st with reconnectTimer := none
                    pendingRetries := st.pendingRetries - 1
                    reconnectAttempts := st.reconnectAttempts + 1 }

/-- The `ws.on('open')` handler (the library moves readyState to
`OPEN` before emitting the event): `this.isConnected = true`,
`this.reconnectAttempts = 0`, `this.startHeartbeat()`,
`this.flushMessageQueue()`. -/
def onOpen (st : Bridge Msg) : Bridge Msg :=
  flushMessageQueue (startHeartbeat
    { st with wsReadyState := some WebSocket.OPEN
              isConnected := true
              reconnectAttempts := 0 })

/-- The `ws.on('close')` handler (the library moves readyState to
`CLOSED` before emitting the event): `this.isConnected = false`,
`this.stopHeartbeat()`, `this.scheduleReconnect()`. -/
def onClose (opts : Options) (st : Bridge Msg) : Bridge Msg :=
  scheduleReconnect opts (stopHeartbeat
    { st with wsReadyState := some WebSocket.CLOSED
              isConnected := false })

/-- `ws.close()` as seen through readyState: a socket that is not yet
closed moves to `CLOSING`; no socket, or an already closed one, is
unaffected. -/
def wsClose (r : Option Nat) : Option Nat :=
  match r with
  | none => none
  | some s => if s = WebSocket.CLOSED then some s else some WebSocket.CLOSING

/-- `shutdown()`: `clearTimeout(this.reconnectTimer)` when set (the
handle itself is not nulled in the source), `this.stopHeartbeat()`,
`this.ws.close()` when `this.ws` exists, `this.rl.close()`,
`process.exit(0)`. -/
def shutdown (st : Bridge Msg) : Bridge Msg :=
  let st1 :=
    if st.reconnectTimer.isSome then
      { st with pendingRetries := st.pendingRetries - 1 }
    else st
  let st2 := stopHeartbeat st1
  { st2 with wsReadyState := wsClose st2.wsReadyState
             rlClosed := true
             exited := some 0 }

/-- The `rl.on('line')` handler: `JSON.parse` the line; on success
hand the message to `sendToWebSocket`, on failure log
`Failed to parse stdin message` and continue.  `parse` stands for
`JSON.parse` restricted to its success/failure behaviour on lines,
which is all the handler observes. -/
def handleLine {Line : Type} (parse : Line → Option Msg)
    (st : Bridge Msg) (line : Line) : Bridge Msg :=
  match parse line with
  | some m => sendToWebSocket st m
  | none => { st with parseErrors := st.parseErrors + 1 }

/-!  Helper lemmas characterising the flush loop in the two regimes
the flags allow: socket open (every send succeeds, the queue drains)
and socket not open while still marked connected (every send fails and
re-appends at the tail, the queue rotates). -/

theorem flushLoop_drains (q : List Msg) : ∀ st : Bridge Msg,
    st.messageQueue = q → st.isConnected = true →
    st.wsReadyState = some WebSocket.OPEN →
    flushLoop q.length st = { st with messageQueue := [], sent := st.sent ++ q } := by
  induction q with
  | nil =>
    intro st hq _ _
    obtain ⟨mq, ra, ic, ht, ah, rt, pr, ws, sn, pe, rc, ex⟩ := st
    dsimp only at hq
    subst hq
    simp [flushLoop]
  | cons m rest ih =>
    intro st hq hc ho
    obtain ⟨mq, ra, ic, ht, ah, rt, pr, ws, sn, pe, rc, ex⟩ := st
    dsimp only at hq hc ho
    subst hq
    subst hc
    subst ho
    simp only [List.length_cons, flushLoop, sendToWebSocket]
    simp only [and_self, if_true, reduceIte]
    rw [ih _ rfl rfl rfl]
    simp

theorem flushLoop_rotates (fuel : Nat) : ∀ st : Bridge Msg,
    st.isConnected = true → st.wsReadyState ≠ some WebSocket.OPEN →
    flushLoop fuel st = { st with messageQueue := st.messageQueue.rotate fuel } := by
  induction fuel with
  | zero =>
    intro st _ _
    obtain ⟨mq, ra, ic, ht, ah, rt, pr, ws, sn, pe, rc, ex⟩ := st
    simp [flushLoop]
  | succ fuel ih =>
    intro st hc ho
    obtain ⟨mq, ra, ic, ht, ah, rt, pr, ws, sn, pe, rc, ex⟩ := st
    dsimp only at hc ho
    subst hc
    rcases mq with _ | ⟨m, rest⟩
    · simp [flushLoop]
    · have hcond : ¬ (True ∧ ws = some WebSocket.OPEN) := by
        rintro ⟨_, h2⟩
        exact ho h2
      simp only [flushLoop, sendToWebSocket]
      rw [if_neg hcond]
      rw [ih _ rfl ho]
      simp [List.rotate_cons_succ]

/-- What the `open` handler does to the whole state: flags set,
attempt counter reset, a fresh heartbeat interval armed, and the queue
drained onto the socket in order. -/
theorem onOpen_eq (st : Bridge Msg) :
    onOpen st =
      { st with messageQueue := []
                sent := st.sent ++ st.messageQueue
                wsReadyState := some WebSocket.OPEN
                isConnected := true
                reconnectAttempts := 0
                heartbeatTimer := some ()
                activeHeartbeats := st.activeHeartbeats + 1 } := by
  obtain ⟨mq, ra, ic, ht, ah, rt, pr, ws, sn, pe, rc, ex⟩ := st
  unfold onOpen flushMessageQueue startHeartbeat
  rw [flushLoop_drains mq _ rfl rfl rfl]

/-!  Concrete states used by witnesses and counterexamples. -/

/-- A connected bridge whose socket has left the `OPEN` state (for
example because the peer initiated a close) while the `close` event
has not fired yet, with two messages queued. -/
def stuckState : Bridge Nat :=
  { initialBridge Nat with
      messageQueue := [0, 1]
      isConnected := true
      wsReadyState := some WebSocket.CLOSING }

/-- The bridge right after its heartbeat was started once. -/
def armedState : Bridge Nat :=
  startHeartbeat (initialBridge Nat)

/-- The bridge right after a successful first connection. -/
def openState : Bridge Nat :=
  onOpen (initialBridge Nat)

/-- Claim C1: with the default configuration, the delay stored by
`scheduleReconnect` for attempt number `n` equals
`min (1000 * (3/2) ^ n) 30000`; the delays for `n = 0, 1, 2, 3` are
`1000, 1500, 2250, 3375`, every delay is clamped at `30000`, and the
delay is non-decreasing in `n`. -/
theorem backoff_delay_formula (n : Nat) (st : Bridge Nat)
    (h1 : st.reconnectTimer = none) (h2 : st.reconnectAttempts = n) :
    (scheduleReconnect defaultOptions st).reconnectTimer
      = some (min (1000 * (3 / 2 : ℚ) ^ n) 30000) ∧
    reconnectDelay defaultOptions 0 = 1000 ∧
    reconnectDelay defaultOptions 1 = 1500 ∧
    reconnectDelay defaultOptions 2 = 2250 ∧
    reconnectDelay defaultOptions 3 = 3375 ∧
    reconnectDelay defaultOptions n ≤ 30000 ∧
    reconnectDelay defaultOptions n ≤ reconnectDelay defaultOptions (n + 1) := by
  refine ⟨?_, ?_, ?_, ?_, ?_, ?_, ?_⟩
  · simp [scheduleReconnect, h1, h2, reconnectDelay, defaultOptions]
  · norm_num [reconnectDelay, defaultOptions, min_def]
  · norm_num [reconnectDelay, defaultOptions, min_def]
  · norm_num [reconnectDelay, defaultOptions, min_def]
  · norm_num [reconnectDelay, defaultOptions, min_def]
  · exact min_le_right _ _
  · refine min_le_min ?_ le_rfl
    have hbase : (0 : ℚ) ≤ 1000 := by norm_num
    have hdecay : (1 : ℚ) ≤ 3 / 2 := by norm_num
    have hpow : (3 / 2 : ℚ) ^ n ≤ (3 / 2 : ℚ) ^ (n + 1) :=
      pow_le_pow_right₀ hdecay (Nat.le_succ n)
    calc defaultOptions.reconnectInterval * defaultOptions.reconnectDecay ^ n
        = 1000 * (3 / 2 : ℚ) ^ n := rfl
      _ ≤ 1000 * (3 / 2 : ℚ) ^ (n + 1) := by
          exact mul_le_mul_of_nonneg_left hpow hbase
      _ = defaultOptions.reconnectInterval * defaultOptions.reconnectDecay ^ (n + 1) := rfl

theorem backoff_delay_formula_witness :
    (scheduleReconnect defaultOptions (initialBridge Nat)).reconnectTimer
      = some (min (1000 * (3 / 2 : ℚ) ^ 0) 30000) ∧
    reconnectDelay defaultOptions 0 = 1000 ∧
    reconnectDelay defaultOptions 1 = 1500 ∧
    reconnectDelay defaultOptions 2 = 2250 ∧
    reconnectDelay defaultOptions 3 = 3375 ∧
    reconnectDelay defaultOptions 0 ≤ 30000 ∧
    reconnectDelay defaultOptions 0 ≤ reconnectDelay defaultOptions (0 + 1) :=
  backoff_delay_formula 0 (initialBridge Nat) rfl rfl

/-- Claim C2, counterexample: in `stuckState` (connected flag still
set, socket no longer `OPEN`, queue `[0, 1]`) one iteration of the
`flushMessageQueue` loop pops the head `0`, fails to deliver it, and
leaves the queue as `[1, 0]` — the failed message went to the tail,
not back to the head, so the order seen by the next drain attempt is
not the order before the failed pop; and the loop guard still holds,
so the drain does not stop. -/
theorem flush_failure_head_cx :
    (flushLoop 1 stuckState).messageQueue = [1, 0] ∧
    (flushLoop 1 stuckState).messageQueue ≠ stuckState.messageQueue ∧
    (flushLoop 1 stuckState).messageQueue ≠ [] ∧
    (flushLoop 1 stuckState).isConnected = true := by
  decide

/-- Claim C2 (amended): when delivery fails because the transport is
no longer `OPEN` while `isConnected` is still true, the popped message
is appended at the tail of the queue (JavaScript `push`), nothing is
delivered, and the drain loop does not stop: after `k` iterations the
queue is the original rotated left by `k`, with its length unchanged
and the loop guard still satisfied. -/
theorem flush_failure_tail_rotate (fuel : Nat) (st : Bridge Msg)
    (hc : st.isConnected = true) (ho : st.wsReadyState ≠ some WebSocket.OPEN) :
    (flushLoop fuel st).messageQueue = st.messageQueue.rotate fuel ∧
    (flushLoop fuel st).sent = st.sent ∧
    (flushLoop fuel st).messageQueue.length = st.messageQueue.length ∧
    (flushLoop fuel st).isConnected = true := by
  rw [flushLoop_rotates fuel st hc ho]
  obtain ⟨mq, ra, ic, ht, ah, rt, pr, ws, sn, pe, rc, ex⟩ := st
  dsimp only at hc
  subst hc
  simp [List.length_rotate]

theorem flush_failure_tail_rotate_witness :
    (flushLoop 1 stuckState).messageQueue = stuckState.messageQueue.rotate 1 ∧
    (flushLoop 1 stuckState).sent = stuckState.sent ∧
    (flushLoop 1 stuckState).messageQueue.length = stuckState.messageQueue.length ∧
    (flushLoop 1 stuckState).isConnected = true :=
  flush_failure_tail_rotate 1 stuckState rfl (by decide)

/-- Claim C3, counterexample: in `armedState` a heartbeat timer is
already armed, and invoking `startHeartbeat` again is not a no-op: it
creates a second live interval timer (`activeHeartbeats` becomes 2). -/
theorem startHeartbeat_reentrant_cx :
    armedState.heartbeatTimer.isSome = true ∧
    (startHeartbeat armedState).activeHeartbeats = 2 := by
  decide

/-- Claim C3 (amended): `startHeartbeat` has no re-entrancy guard.
Invoking it while a heartbeat timer is already armed creates an
additional live interval timer and overwrites the handle, so a
subsequent `stopHeartbeat` cancels only the newer timer and the
number of live timers falls back only to what it was before the
re-entrant start — the older timer leaks. -/
theorem startHeartbeat_reentrant_arms_second (st : Bridge Msg)
    (_h : st.heartbeatTimer.isSome = true) :
    (startHeartbeat st).activeHeartbeats = st.activeHeartbeats + 1 ∧
    (startHeartbeat st).heartbeatTimer.isSome = true ∧
    (stopHeartbeat (startHeartbeat st)).activeHeartbeats = st.activeHeartbeats := by
  unfold startHeartbeat stopHeartbeat
  simp

theorem startHeartbeat_reentrant_arms_second_witness :
    (startHeartbeat armedState).activeHeartbeats = armedState.activeHeartbeats + 1 ∧
    (startHeartbeat armedState).heartbeatTimer.isSome = true ∧
    (stopHeartbeat (startHeartbeat armedState)).activeHeartbeats
      = armedState.activeHeartbeats :=
  startHeartbeat_reentrant_arms_second armedState rfl

/-- Claim C4: a message handed to `sendToWebSocket` is appended to
the outbound queue exactly when, at the moment of submission, the
connected flag is not set or the socket is not in the `OPEN`
(write-ready) state; otherwise it is delivered immediately to the
transport and the queue is untouched. -/
theorem sendToWebSocket_enqueue_iff (st : Bridge Msg) (m : Msg) :
    ((sendToWebSocket st m).messageQueue = st.messageQueue ++ [m] ∧
        (sendToWebSocket st m).sent = st.sent ↔
      ¬ (st.isConnected = true ∧ st.wsReadyState = some WebSocket.OPEN)) ∧
    (st.isConnected = true ∧ st.wsReadyState = some WebSocket.OPEN →
      (sendToWebSocket st m).sent = st.sent ++ [m] ∧
      (sendToWebSocket st m).messageQueue = st.messageQueue) := by
  unfold sendToWebSocket
  split_ifs with h
  · refine ⟨⟨?_, fun hn => (hn h).elim⟩, fun _ => ⟨rfl, rfl⟩⟩
    rintro ⟨hq, _⟩
    intro _
    have hlen := congrArg List.length hq
    simp only [List.length_append, List.length_cons, List.length_nil] at hlen
    omega
  · exact ⟨⟨fun _ => h, fun _ => ⟨rfl, rfl⟩⟩, fun hcon => (h hcon).elim⟩

theorem sendToWebSocket_enqueue_iff_witness :
    (sendToWebSocket openState 5).sent = openState.sent ++ [5] ∧
    (sendToWebSocket openState 5).messageQueue = openState.messageQueue :=
  (sendToWebSocket_enqueue_iff openState 5).2 (by decide)

/-- Claim C5: messages `A`, `B`, `C` submitted in that order while the
bridge is not connected are all enqueued; on the transition into the
connected state (the `open` handler, with the socket open) they are
delivered to the transport in the order `A`, `B`, `C` (after whatever
was queued before them), and the queue is empty immediately after the
drain. -/
theorem queued_messages_drain_in_order (st : Bridge Msg) (A B C : Msg)
    (hc : st.isConnected = false) :
    (onOpen (sendToWebSocket (sendToWebSocket (sendToWebSocket st A) B) C)).sent
      = st.sent ++ (st.messageQueue ++ [A, B, C]) ∧
    (onOpen (sendToWebSocket (sendToWebSocket (sendToWebSocket st A) B) C)).messageQueue
      = [] := by
  obtain ⟨mq, ra, ic, ht, ah, rt, pr, ws, sn, pe, rc, ex⟩ := st
  dsimp only at hc
  subst hc
  have henq : ∀ (q : List Msg) (x : Msg),
      sendToWebSocket
        ({ messageQueue := q, reconnectAttempts := ra, isConnected := false,
           heartbeatTimer := ht, activeHeartbeats := ah, reconnectTimer := rt,
           pendingRetries := pr, wsReadyState := ws, sent := sn, parseErrors := pe,
           rlClosed := rc, exited := ex } : Bridge Msg) x
        = { messageQueue := q ++ [x], reconnectAttempts := ra, isConnected := false,
            heartbeatTimer := ht, activeHeartbeats := ah, reconnectTimer := rt,
            pendingRetries := pr, wsReadyState := ws, sent := sn, parseErrors := pe,
            rlClosed := rc, exited := ex } := by
    intro q x
    unfold sendToWebSocket
    rw [if_neg]
    rintro ⟨hic, _⟩
    exact Bool.noConfusion hic
  rw [henq, henq, henq, onOpen_eq]
  simp

theorem queued_messages_drain_in_order_witness :
    (onOpen (sendToWebSocket (sendToWebSocket (sendToWebSocket (initialBridge Nat) 1) 2) 3)).sent
      = (initialBridge Nat).sent ++ ((initialBridge Nat).messageQueue ++ [1, 2, 3]) ∧
    (onOpen (sendToWebSocket (sendToWebSocket (sendToWebSocket (initialBridge Nat) 1) 2) 3)).messageQueue
      = [] :=
  queued_messages_drain_in_order (initialBridge Nat) 1 2 3 rfl

/-- Claim C6: `scheduleReconnect` owns a single pending retry timer:
from a state with no pending timer, one call leaves exactly one live
`setTimeout`, and a second call while that timer is pending is a
complete no-op — it creates no second timer and leaves the state
unchanged. -/
theorem scheduleReconnect_single_pending (opts : Options) (st : Bridge Msg)
    (h0 : st.reconnectTimer = none) (hp : st.pendingRetries = 0) :
    (scheduleReconnect opts st).pendingRetries = 1 ∧
    (scheduleReconnect opts (scheduleReconnect opts st)).pendingRetries = 1 ∧
    scheduleReconnect opts (scheduleReconnect opts st) = scheduleReconnect opts st := by
  unfold scheduleReconnect
  simp [h0, hp]

theorem scheduleReconnect_single_pending_witness :
    (scheduleReconnect defaultOptions (initialBridge Nat)).pendingRetries = 1 ∧
    (scheduleReconnect defaultOptions
        (scheduleReconnect defaultOptions (initialBridge Nat))).pendingRetries = 1 ∧
    scheduleReconnect defaultOptions
        (scheduleReconnect defaultOptions (initialBridge Nat))
      = scheduleReconnect defaultOptions (initialBridge Nat) :=
  scheduleReconnect_single_pending defaultOptions (initialBridge Nat) rfl rfl

/-- Claim C7: the attempt counter is reset to 0 by every successful
connection (the `open` handler) and incremented exactly when a
scheduled retry fires; hence a disconnection following a successful
connection (no retry timer pending, as is the case whenever `open`
fires) schedules its retry with attempt number 0, which under the
default configuration is a delay of 1000. -/
theorem attempt_counter_reset (st : Bridge Msg)
    (h : st.reconnectTimer = none) :
    (onOpen st).reconnectAttempts = 0 ∧
    (reconnectTimerFires st).reconnectAttempts = st.reconnectAttempts + 1 ∧
    (onClose defaultOptions (onOpen st)).reconnectAttempts = 0 ∧
    (onClose defaultOptions (onOpen st)).reconnectTimer = some 1000 := by
  rw [onOpen_eq]
  obtain ⟨mq, ra, ic, ht, ah, rt, pr, ws, sn, pe, rc, ex⟩ := st
  dsimp only at h
  subst h
  refine ⟨rfl, rfl, ?_, ?_⟩
  · simp [onClose, stopHeartbeat, scheduleReconnect, reconnectTimerFires, connect]
  · simp only [onClose, stopHeartbeat, scheduleReconnect]
    norm_num [reconnectDelay, defaultOptions, min_def]

theorem attempt_counter_reset_witness :
    (onOpen (initialBridge Nat)).reconnectAttempts = 0 ∧
    (reconnectTimerFires (initialBridge Nat)).reconnectAttempts
      = (initialBridge Nat).reconnectAttempts + 1 ∧
    (onClose defaultOptions (onOpen (initialBridge Nat))).reconnectAttempts = 0 ∧
    (onClose defaultOptions (onOpen (initialBridge Nat))).reconnectTimer = some 1000 :=
  attempt_counter_reset (initialBridge Nat) rfl

/-- Claim C8: from any state whose live-timer counts agree with the
two handle fields (as they do in every reachable state), `shutdown`
cancels the pending reconnect timer and the pending heartbeat timer
before returning — no live timer remains, so no reconnect attempt
fires and no heartbeat probe is issued afterwards — closes the
transport if it is open, releases the input reader, and exits the
process with status 0. -/
theorem shutdown_cancels_and_exits (st : Bridge Msg)
    (hr : st.pendingRetries = if st.reconnectTimer.isSome then 1 else 0)
    (hh : st.activeHeartbeats = if st.heartbeatTimer.isSome then 1 else 0) :
    (shutdown st).pendingRetries = 0 ∧
    (shutdown st).activeHeartbeats = 0 ∧
    (st.wsReadyState = some WebSocket.OPEN →
      (shutdown st).wsReadyState = some WebSocket.CLOSING) ∧
    (shutdown st).rlClosed = true ∧
    (shutdown st).exited = some 0 := by
  obtain ⟨mq, ra, ic, ht, ah, rt, pr, ws, sn, pe, rc, ex⟩ := st
  dsimp only at hr hh ⊢
  unfold shutdown stopHeartbeat wsClose
  rcases rt with _ | d <;> rcases ht with _ | u <;>
    simp_all <;>
    intro hws <;>
    simp [hws, WebSocket.OPEN, WebSocket.CLOSED, WebSocket.CLOSING]

theorem shutdown_cancels_and_exits_witness :
    (shutdown openState).pendingRetries = 0 ∧
    (shutdown openState).activeHeartbeats = 0 ∧
    (openState.wsReadyState = some WebSocket.OPEN →
      (shutdown openState).wsReadyState = some WebSocket.CLOSING) ∧
    (shutdown openState).rlClosed = true ∧
    (shutdown openState).exited = some 0 :=
  shutdown_cancels_and_exits openState (by decide) (by decide)

/-- Claim C9: a line that fails to decode is logged and discarded —
the parse-error count goes up by one, nothing is sent or queued, and
the process neither exits nor enters an error state — and a
well-formed message on the next line is relayed normally, so one bad
line followed by one good message yields exactly one discarded-frame
log and exactly one successful relay. -/
theorem malformed_line_resilience {Line : Type} (parse : Line → Option Msg)
    (st : Bridge Msg) (bad good : Line) (m : Msg)
    (hb : parse bad = none) (hg : parse good = some m)
    (hc : st.isConnected = true) (ho : st.wsReadyState = some WebSocket.OPEN) :
    (handleLine parse st bad).parseErrors = st.parseErrors + 1 ∧
    (handleLine parse st bad).exited = st.exited ∧
    (handleLine parse st bad).sent = st.sent ∧
    (handleLine parse st bad).messageQueue = st.messageQueue ∧
    (handleLine parse (handleLine parse st bad) good).parseErrors = st.parseErrors + 1 ∧
    (handleLine parse (handleLine parse st bad) good).sent = st.sent ++ [m] ∧
    (handleLine parse (handleLine parse st bad) good).exited = st.exited := by
  obtain ⟨mq, ra, ic, ht, ah, rt, pr, ws, sn, pe, rc, ex⟩ := st
  dsimp only at hc ho ⊢
  subst hc
  subst ho
  simp [handleLine, hb, hg, sendToWebSocket]

theorem malformed_line_resilience_witness :
    (handleLine (fun n => if n = 1 then some 7 else none) openState 0).parseErrors
      = openState.parseErrors + 1 ∧
    (handleLine (fun n => if n = 1 then some 7 else none) openState 0).exited
      = openState.exited ∧
    (handleLine (fun n => if n = 1 then some 7 else none) openState 0).sent
      = openState.sent ∧
    (handleLine (fun n => if n = 1 then some 7 else none) openState 0).messageQueue
      = openState.messageQueue ∧
    (handleLine (fun n => if n = 1 then some 7 else none)
        (handleLine (fun n => if n = 1 then some 7 else none) openState 0) 1).parseErrors
      = openState.parseErrors + 1 ∧
    (handleLine (fun n => if n = 1 then some 7 else none)
        (handleLine (fun n => if n = 1 then some 7 else none) openState 0) 1).sent
      = openState.sent ++ [7] ∧
    (handleLine (fun n => if n = 1 then some 7 else none)
        (handleLine (fun n => if n = 1 then some 7 else none) openState 0) 1).exited
      = openState.exited :=
  malformed_line_resilience (fun n : Nat => if n = 1 then some 7 else none)
    openState 0 1 7 rfl rfl (by decide) (by decide)

/-- Claim C10: every message accepted by `sendToWebSocket` is, in
every state, either written to the transport or appended to the
outbound queue — exactly one of the two — so no decoded outbound
message is ever silently dropped; in particular, when the connected
flag is true but the socket's readyState is `CLOSING`, the message is
enqueued rather than lost. -/
theorem sendToWebSocket_no_message_loss (st : Bridge Msg) (m : Msg) :
    (((sendToWebSocket st m).sent = st.sent ++ [m] ∧
        (sendToWebSocket st m).messageQueue = st.messageQueue) ∨
      ((sendToWebSocket st m).messageQueue = st.messageQueue ++ [m] ∧
        (sendToWebSocket st m).sent = st.sent)) ∧
    ¬ ((sendToWebSocket st m).sent = st.sent ++ [m] ∧
        (sendToWebSocket st m).messageQueue = st.messageQueue ++ [m]) ∧
    (st.isConnected = true → st.wsReadyState = some WebSocket.CLOSING →
      (sendToWebSocket st m).messageQueue = st.messageQueue ++ [m]) := by
  unfold sendToWebSocket
  split_ifs with h
  · refine ⟨Or.inl ⟨rfl, rfl⟩, ?_, ?_⟩
    · rintro ⟨_, hq⟩
      have hlen := congrArg List.length hq
      simp only [List.length_append, List.length_cons, List.length_nil] at hlen
      omega
    · intro _ hcl
      rw [h.2] at hcl
      simp [WebSocket.OPEN, WebSocket.CLOSING] at hcl
  · refine ⟨Or.inr ⟨rfl, rfl⟩, ?_, fun _ _ => rfl⟩
    rintro ⟨hs, _⟩
    have hlen := congrArg List.length hs
    simp only [List.length_append, List.length_cons, List.length_nil] at hlen
    omega

theorem sendToWebSocket_no_message_loss_witness :
    (sendToWebSocket stuckState 7).messageQueue = stuckState.messageQueue ++ [7] :=
  (sendToWebSocket_no_message_loss stuckState 7).2.2 rfl rfl

end Mcp2WebSocket
